import Mathlib

/-!
Shallow embedding of the pixellens tracking-pixel validation engine
(`cli/network_monitor.py` and `cli/validator.py`).

Strings are modelled as `List Char`.  The Python regular expressions in the
two fixed pattern tables are simple enough to be modelled directly: every
pattern is either a literal substring search, an alternation of literals, a
`A.*B` gap search (where `.` matches any character except a newline), or — in
the single case of the "Universal Analytics" rule — a gap search followed by a
negative lookahead.  Each of these shapes gets an explicit executable search
function below, and the two tables are transcribed rule for rule.
-/

set_option maxHeartbeats 1000000

abbrev Str := List Char

/-- `re.search` of a literal pattern `p`: `p` occurs contiguously in `s`. -/
def searchLit (p : Str) : Str → Bool
  | [] => p.isEmpty
  | c :: rest => p.isPrefixOf (c :: rest) || searchLit p rest

/-- Matching of `.*` followed by the literal `p` starting at the beginning of
`s`: a run of non-newline characters, then `p`. -/
def gapFrom (p : Str) : Str → Bool
  | [] => p.isEmpty
  | c :: rest => p.isPrefixOf (c :: rest) || (decide (c ≠ '\n') && gapFrom p rest)

/-- `re.search` of `p.*q` (literal `p`, any non-newline gap, literal `q`). -/
def searchGap (p q : Str) : Str → Bool
  | [] => p.isEmpty && gapFrom q []
  | c :: rest =>
      (p.isPrefixOf (c :: rest) && gapFrom q ((c :: rest).drop p.length))
      || searchGap p q rest

/-- Matching of `.*\/collect(?!.*\/g\/)` at the beginning of `s`: some
non-newline gap, then the literal `/collect`, such that no occurrence of
`/g/` is reachable (over non-newline characters) after that `/collect`.
Backtracking semantics: the whole pattern matches if ANY choice of the
`/collect` occurrence satisfies the lookahead. -/
def uaLookFrom : Str → Bool
  | [] => false
  | c :: rest =>
      ("/collect".data.isPrefixOf (c :: rest)
        && !(gapFrom "/g/".data ((c :: rest).drop "/collect".data.length)))
      || (decide (c ≠ '\n') && uaLookFrom rest)

/-- `re.search` of `google-analytics\.com.*\/collect(?!.*\/g\/)`, the
"Universal Analytics" classification rule. -/
def uaSearch : Str → Bool
  | [] => false
  | c :: rest =>
      ("google-analytics.com".data.isPrefixOf (c :: rest)
        && uaLookFrom ((c :: rest).drop "google-analytics.com".data.length))
      || uaSearch rest

/-- `re.search` of `[?&]p` for a literal `p` (used by the `utm_` / `gclid=` /
`fbclid=` detection rules). -/
def searchParamPat (p : Str) (s : Str) : Bool :=
  searchLit ('?' :: p) s || searchLit ('&' :: p) s

/-- The `tracking_patterns` detection table of `NetworkMonitor.__init__`,
transcribed rule for rule in declared order. -/
def trackingPatternMatch (url : Str) : Bool :=
  searchLit "google-analytics.com".data url
  || searchLit "googletagmanager.com".data url
  || searchLit "gtag/js".data url
  || searchLit "collect?".data url
  || searchLit "facebook.com/tr".data url
  || searchLit "connect.facebook.net".data url
  || searchLit "hotjar.com".data url
  || (searchLit "segment.io".data url || searchLit "segment.com".data url)
  || searchLit "mixpanel.com".data url
  || searchLit "amplitude.com".data url
  || searchLit "klaviyo.com".data url
  || searchGap "pinterest.com".data "/pixel".data url
  || searchGap "tiktok.com".data "/pixel".data url
  || searchGap "linkedin.com".data "/px".data url
  || searchGap "twitter.com".data "/i/adsct".data url
  || searchGap "snapchat.com".data "/tr".data url
  || searchLit "sp.cargurus.com".data url
  || searchLit "snowplowanalytics.com".data url
  || searchLit "/i?".data url
  || searchLit "/track?".data url
  || searchLit "/pixel?".data url
  || searchLit "/analytics?".data url
  || searchLit "/events?".data url
  || searchLit "/beacon".data url
  || searchParamPat "utm_".data url
  || searchParamPat "gclid=".data url
  || searchParamPat "fbclid=".data url

/-- `NetworkMonitor.is_tracking_request`: any detection pattern matches. -/
def is_tracking_request (url : Str) : Bool :=
  trackingPatternMatch url

/-- The `classifications` table of `NetworkMonitor.classify_pixel`: vendor
label paired with its pattern, in declared (dict insertion) order. -/
def classifications : List (Str × (Str → Bool)) :=
  [ ("Google Analytics 4".data, fun url =>
      searchLit "gtag".data url
      || searchGap "google-analytics.com".data "/g/collect".data url)
  , ("Universal Analytics".data, fun url => uaSearch url)
  , ("Google Tag Manager".data, fun url => searchLit "googletagmanager.com".data url)
  , ("Facebook Pixel".data, fun url =>
      searchLit "facebook.com/tr".data url
      || searchGap "connect.facebook.net".data "fbevents".data url)
  , ("Hotjar".data, fun url => searchLit "hotjar.com".data url)
  , ("Segment".data, fun url =>
      (searchLit "segment.io".data url || searchLit "segment.com".data url)
      || searchLit "cdn.segment.com".data url)
  , ("Mixpanel".data, fun url => searchLit "mixpanel.com".data url)
  , ("Amplitude".data, fun url => searchLit "amplitude.com".data url)
  , ("Klaviyo".data, fun url => searchLit "klaviyo.com".data url)
  , ("Pinterest".data, fun url => searchGap "pinterest.com".data "/pixel".data url)
  , ("TikTok".data, fun url => searchGap "tiktok.com".data "/pixel".data url)
  , ("LinkedIn".data, fun url => searchGap "linkedin.com".data "/px".data url)
  , ("Twitter".data, fun url => searchGap "twitter.com".data "/i/adsct".data url)
  , ("Snapchat".data, fun url => searchGap "snapchat.com".data "/tr".data url)
  , ("Snowplow".data, fun url =>
      (searchLit "sp.cargurus.com".data url
        || searchLit "snowplowanalytics.com".data url)
      || searchLit "/i?".data url) ]

/-- `NetworkMonitor.classify_pixel`: first matching vendor rule wins, with the
literal fallback label when no vendor rule matches. -/
def classify_pixel (url : Str) : Str :=
  match classifications.find? (fun vp => vp.2 url) with
  | some vp => vp.1
  | none => "Generic Tracking".data

example : is_tracking_request "https://www.google-analytics.com/collect".data = true := by decide
example : is_tracking_request "https://facebook.com/tr".data = true := by decide
example : is_tracking_request "https://sp.cargurus.com/i?".data = true := by decide
example : is_tracking_request "https://example.com".data = false := by decide
example : is_tracking_request "https://cdn.example.com/script.js".data = false := by decide
example : classify_pixel "https://www.google-analytics.com/g/collect".data = "Google Analytics 4".data := by decide
example : classify_pixel "https://facebook.com/tr".data = "Facebook Pixel".data := by decide
example : classify_pixel "https://sp.cargurus.com/i?".data = "Snowplow".data := by decide
example : classify_pixel "https://hotjar.com/track".data = "Hotjar".data := by decide
example : classify_pixel "https://unknown-tracker.com/pixel".data = "Generic Tracking".data := by decide

/-- The two journey phases of `NetworkMonitor.phases`.  A monitor starts in
`page_load` and `start_interaction_phase` switches it to `user_interaction`. -/
inductive Phase
  | page_load
  | user_interaction
deriving DecidableEq

/-- The `TrackedRequest` dataclass of `network_monitor.py`.  Timestamps are
modelled as integers (only their order matters to the engine). -/
structure TrackedRequest where
  url : Str
  method : Str
  headers : List (Str × Str)
  timestamp : Int
  phase : Phase
  resource_type : Str
  is_tracking : Bool
  status_code : Option Int := none
  response_headers : Option (List (Str × Str)) := none
  successful : Option Bool := none
deriving DecidableEq

/-- The mutable state of a `NetworkMonitor` instance. -/
structure NetworkMonitor where
  requests : List TrackedRequest := []
  start_time : Option Int := none
  current_phase : Phase := .page_load
deriving DecidableEq

/-- The request data a Playwright `request` callback delivers. -/
structure RawRequest where
  url : Str
  method : Str
  headers : List (Str × Str)
  resource_type : Str
deriving DecidableEq

/-- The response data a Playwright `response` callback delivers. -/
structure RawResponse where
  url : Str
  status : Int
  headers : List (Str × Str)
  ok : Bool
deriving DecidableEq

/-- `NetworkMonitor._capture_request`: append a `TrackedRequest` tagged with
the current phase and the detection verdict (`now` stands for `time.time()`). -/
def capture_request (m : NetworkMonitor) (req : RawRequest) (now : Int) : NetworkMonitor :=
  { m with requests := m.requests ++
      [ { url := req.url
        , method := req.method
        , headers := req.headers
        , timestamp := now
        , phase := m.current_phase
        , resource_type := req.resource_type
        , is_tracking := is_tracking_request req.url } ] }

/-- The in-place mutation of the matched request in
`NetworkMonitor._capture_response`. -/
def set_response (r : TrackedRequest) (resp : RawResponse) : TrackedRequest :=
  { r with status_code := some resp.status
         , response_headers := some resp.headers
         , successful := some resp.ok }

/-- The `for request in reversed(self.requests): ... break` loop of
`NetworkMonitor._capture_response`, acting on the reversed request list:
the first request with equal URL and no status code yet receives the
response data, everything else is left alone. -/
def attach_rev (resp : RawResponse) : List TrackedRequest → List TrackedRequest
  | [] => []
  | r :: rest =>
      if r.url = resp.url ∧ r.status_code = none then set_response r resp :: rest
      else r :: attach_rev resp rest

/-- `NetworkMonitor._capture_response`: only tracking URLs are correlated at
all; among the recorded requests, the most recently recorded unresolved one
with equal URL receives the response data. -/
def capture_response (m : NetworkMonitor) (resp : RawResponse) : NetworkMonitor :=
  if is_tracking_request resp.url then
    { m with requests := (attach_rev resp m.requests.reverse).reverse }
  else m

/-- `NetworkMonitor.start_interaction_phase`. -/
def start_interaction_phase (m : NetworkMonitor) : NetworkMonitor :=
  { m with current_phase := .user_interaction }

/-- `NetworkMonitor.get_tracking_requests`. -/
def get_tracking_requests (m : NetworkMonitor) : List TrackedRequest :=
  m.requests.filter (fun r => r.is_tracking)

/-- `NetworkMonitor.get_tracking_requests_by_phase`. -/
def get_tracking_requests_by_phase (m : NetworkMonitor) (p : Phase) : List TrackedRequest :=
  (get_tracking_requests m).filter (fun r => decide (r.phase = p))

/-- Appending a value under a key in an insertion-ordered mapping, as a Python
`dict` of lists does: the first entry holding the key gets the value appended,
a missing key is inserted at the end.  Used both for `pixels_by_vendor` in
`get_summary` and for the grouping inside `urllib.parse.parse_qs`. -/
def assoc_add {α β : Type} [DecidableEq α] :
    List (α × List β) → α → β → List (α × List β)
  | [], k, v => [(k, [v])]
  | e :: rest, k, v =>
      if e.1 = k then (e.1, e.2 ++ [v]) :: rest
      else e :: assoc_add rest k v

/-- The vendor-grouping loop of `NetworkMonitor.get_summary`. -/
def group_by_vendor (reqs : List TrackedRequest) : List (Str × List TrackedRequest) :=
  reqs.foldl (fun acc r => assoc_add acc (classify_pixel r.url) r) []

/-- One entry of the timeline built by `NetworkMonitor._get_timeline`. -/
structure TimelineEntry where
  timestamp : Int
  vendor : Str
  url : Str
  phase : Phase
  successful : Option Bool
deriving DecidableEq

/-- The dict built per request in `NetworkMonitor._get_timeline`: the
timestamp field is the offset from the session start (0 when the session was
never started). -/
def timeline_entry (t0 : Option Int) (r : TrackedRequest) : TimelineEntry :=
  { timestamp := match t0 with | some t => r.timestamp - t | none => 0
  , vendor := classify_pixel r.url
  , url := r.url
  , phase := r.phase
  , successful := r.successful }

/-- The sort key of `_get_timeline` (`key=lambda x: x.timestamp`). -/
def ts_le (a b : TrackedRequest) : Bool :=
  decide (a.timestamp ≤ b.timestamp)

/-- `NetworkMonitor._get_timeline`: tracking requests sorted by timestamp,
each rendered as a timeline entry. -/
def get_timeline (m : NetworkMonitor) : List TimelineEntry :=
  ((get_tracking_requests m).mergeSort ts_le).map (timeline_entry m.start_time)

/-- The `ValidationSummary` dataclass of `network_monitor.py` (counts are
stored instead of the lists whose lengths they are, as in the source). -/
structure ValidationSummary where
  total_requests : Nat
  tracking_requests : Nat
  page_load_pixels : Nat
  interaction_pixels : Nat
  pixels_by_vendor : List (Str × List TrackedRequest)
  timeline : List TimelineEntry
deriving DecidableEq

/-- `NetworkMonitor.get_summary`. -/
def get_summary (m : NetworkMonitor) : ValidationSummary :=
  { total_requests := m.requests.length
  , tracking_requests := (get_tracking_requests m).length
  , page_load_pixels := (get_tracking_requests_by_phase m .page_load).length
  , interaction_pixels := (get_tracking_requests_by_phase m .user_interaction).length
  , pixels_by_vendor := group_by_vendor (get_tracking_requests m)
  , timeline := get_timeline m }

/-- `NetworkMonitor.stop`: prints a banner and returns `get_summary`; it does
not modify the monitor state, which the explicit state/value pair makes
visible. -/
def stop (m : NetworkMonitor) : NetworkMonitor × ValidationSummary :=
  (m, get_summary m)

/-- Split at the first occurrence of `sep`, like Python `s.split(sep, 1)`:
the part before, and `some` remainder when `sep` occurs. -/
def break1 (sep : Char) : Str → Str × Option Str
  | [] => ([], none)
  | c :: rest =>
      if c = sep then ([], some rest)
      else
        let p := break1 sep rest
        (c :: p.1, p.2)

/-- Python `s.split(sep)` for a one-character separator (never empty: the
empty string splits into one empty field). -/
def splitOn (sep : Char) : Str → List Str
  | [] => [[]]
  | c :: rest =>
      if c = sep then [] :: splitOn sep rest
      else
        match splitOn sep rest with
        | [] => [[c]]
        | f :: fs => (c :: f) :: fs

/-- The query-string extraction of `urllib.parse.urlparse`: the fragment is
everything after the first `#`, and the query is everything after the first
`?` of what precedes the fragment. -/
def url_query (url : Str) : Str :=
  match (break1 '?' (break1 '#' url).1).2 with
  | some q => q
  | none => []

/-- Python `s.replace("+", " ")`, applied by `parse_qsl` before unquoting. -/
def plusToSpace (s : Str) : Str :=
  s.map (fun c => if c = '+' then ' ' else c)

/-- Value of an ASCII hex digit, if any. -/
def hexDigitVal (c : Char) : Option Nat :=
  if '0' ≤ c ∧ c ≤ '9' then some (c.toNat - '0'.toNat)
  else if 'a' ≤ c ∧ c ≤ 'f' then some (c.toNat - 'a'.toNat + 10)
  else if 'A' ≤ c ∧ c ≤ 'F' then some (c.toNat - 'A'.toNat + 10)
  else none

/-- `urllib.parse.unquote`: a `%` followed by two hex digits decodes to the
corresponding code point, an ill-formed `%` sequence is left as is.  (CPython
additionally reassembles consecutive decoded bytes above 0x7f through a UTF-8
decode; the engine's parameter matching never depends on that, and this model
keeps each decoded byte as one character.) -/
def unquote : Str → Str
  | [] => []
  | '%' :: h1 :: h2 :: rest2 =>
      (match hexDigitVal h1, hexDigitVal h2 with
       | some a, some b => Char.ofNat (16 * a + b) :: unquote rest2
       | _, _ => '%' :: unquote (h1 :: h2 :: rest2))
  | c :: rest => c :: unquote rest

/-- `urllib.parse.parse_qsl` with default arguments: split on `&`, skip empty
fields, skip fields without `=` and fields with an empty value
(`keep_blank_values=False`), unquote names and values. -/
def parse_qsl (qs : Str) : List (Str × Str) :=
  (splitOn '&' qs).filterMap (fun field =>
    if field.isEmpty then none
    else
      match break1 '=' field with
      | (_, none) => none
      | (n, some v) =>
          if v.isEmpty then none
          else some (unquote (plusToSpace n), unquote (plusToSpace v)))

/-- `urllib.parse.parse_qs`: the `parse_qsl` pairs grouped into an
insertion-ordered mapping from name to the list of its values. -/
def parse_qs (qs : Str) : List (Str × List Str) :=
  (parse_qsl qs).foldl (fun acc p => assoc_add acc p.1 p.2) []

/-- Python `d.get(name, [])` on the `parse_qs` result. -/
def qs_get (d : List (Str × List Str)) (n : Str) : List Str :=
  match d.find? (fun e => decide (e.1 = n)) with
  | some e => e.2
  | none => []

/-- The `UrlParam` dataclass of `validator.py`. -/
structure UrlParam where
  name : Str
  value : Str
deriving DecidableEq

/-- The `ExpectedPixel` dataclass of `validator.py`. -/
structure ExpectedPixel where
  vendor : Str
  url_params : List UrlParam := []
deriving DecidableEq

/-- The `ValidationStep` dataclass.  Its `expect_pixels` field is the Python
`dict` configuration already parsed by `_parse_expected_pixels` into the
insertion-ordered list of `ExpectedPixel` (one per declared vendor key). -/
structure ValidationStep where
  name : Str
  action : Str
  expect_pixels : List ExpectedPixel := []
deriving DecidableEq

/-- The `StepResult` dataclass of `validator.py`.  (In the step-error path the
source stores the parsed `ExpectedPixel` objects in `expected_pixels` where
the normal path stores their vendor names; the model uses the vendor names in
both paths.) -/
structure StepResult where
  step_name : Str
  action : Str
  expected_pixels : List Str
  detected_pixels : List Str := []
  passed_pixels : List Str := []
  failed_pixels : List Str := []
  success : Bool := false
  error : Option Str := none
  execution_time : Int := 0
deriving DecidableEq

/-- The `ValidationResult` dataclass of `validator.py`. -/
structure ValidationResult where
  test_case : Str
  url : Str
  success : Bool
  step_results : List StepResult := []
  error : Option Str := none
  execution_time : Int := 0
deriving DecidableEq

/-- Python substring membership `sub in s`. -/
def str_in (sub s : Str) : Bool :=
  decide (sub <:+: s)

/-- Python `s.lower()` (ASCII case folding in the model). -/
def to_lower (s : Str) : Str :=
  s.map Char.toLower

/-- The fuzzy vendor comparison of `TagValidator._validate_step_pixels`:
`expected.lower() in vendor.lower() or vendor.lower() in expected.lower()`. -/
def vendor_matches (expected vendor : Str) : Bool :=
  str_in (to_lower expected) (to_lower vendor)
  || str_in (to_lower vendor) (to_lower expected)

/-- The inner parameter check of `_validate_step_pixels`: every declared
parameter's expected value occurs among the values `parse_qs` binds to that
name in the request's query string. -/
def request_params_match (ps : List UrlParam) (r : TrackedRequest) : Bool :=
  ps.all (fun p => decide (p.value ∈ qs_get (parse_qs (url_query r.url)) p.name))

/-- One `pixels_by_vendor` entry satisfies an expectation: its vendor fuzzily
matches and one of its requests satisfies every declared parameter. -/
def vendor_entry_has_param_match (ep : ExpectedPixel)
    (entry : Str × List TrackedRequest) : Bool :=
  vendor_matches ep.vendor entry.1 && entry.2.any (request_params_match ep.url_params)

/-- The `param_validation_passed` search of `_validate_step_pixels`: some
fuzzily matching vendor entry has a request satisfying all parameters. -/
def param_validation (ep : ExpectedPixel)
    (pbv : List (Str × List TrackedRequest)) : Bool :=
  pbv.any (vendor_entry_has_param_match ep)

/-- The per-expectation verdict of the main loop of `_validate_step_pixels`:
the vendor must be detected (fuzzily), and when parameters are declared some
matching vendor entry must contain a fully satisfying request. -/
def pixel_passes (ep : ExpectedPixel) (summary : ValidationSummary) : Bool :=
  (summary.pixels_by_vendor.map (fun e => e.1)).any (fun v => vendor_matches ep.vendor v)
  && (ep.url_params.isEmpty || param_validation ep summary.pixels_by_vendor)

/-- `TagValidator._validate_step_pixels`.  The source loop appends each
declared vendor to exactly one of `passed_pixels` / `failed_pixels`, in
declared order, which the two filters reproduce. -/
def validate_step_pixels (step : ValidationStep) (summary : ValidationSummary)
    (execution_time : Int) : StepResult :=
  { step_name := step.name
  , action := step.action
  , expected_pixels := step.expect_pixels.map (fun p => p.vendor)
  , detected_pixels := summary.pixels_by_vendor.map (fun e => e.1)
  , passed_pixels :=
      (step.expect_pixels.filter (fun ep => pixel_passes ep summary)).map (fun p => p.vendor)
  , failed_pixels :=
      (step.expect_pixels.filter (fun ep => !pixel_passes ep summary)).map (fun p => p.vendor)
  , success := ((step.expect_pixels.filter (fun ep => !pixel_passes ep summary)).map (fun p => p.vendor)).isEmpty
  , error := none
  , execution_time := execution_time }

/-- What executing one step's try-block yields in `validate_test_case`: either
the step summary captured by the step's monitor, or the exception message
caught at the step boundary. -/
inductive StepOutcome
  | ok (summary : ValidationSummary)
  | err (msg : Str)
deriving DecidableEq

/-- The body of the per-step loop of `TagValidator.validate_test_case`: the
normal path validates the captured summary, the `except` path records the
exception string on a failed `StepResult`. -/
def run_step (step : ValidationStep) (outcome : StepOutcome) (t : Int) : StepResult :=
  match outcome with
  | .ok summary => validate_step_pixels step summary t
  | .err e =>
      { step_name := step.name
      , action := step.action
      , expected_pixels := step.expect_pixels.map (fun p => p.vendor)
      , success := false
      , error := some e
      , execution_time := t }

/-- `TagValidator.validate_test_case` (the step loop): each declared step, in
order, contributes the `StepResult` of its outcome; `all_success` is the
conjunction of the step verdicts.  Each step is given with the outcome its
execution produced and its measured duration. -/
def validate_test_case (test_case : Str) (url : Str)
    (steps : List (ValidationStep × StepOutcome × Int)) (total_time : Int) :
    ValidationResult :=
  let results := steps.map (fun s => run_step s.1 s.2.1 s.2.2)
  { test_case := test_case
  , url := url
  , success := results.all (fun r => r.success)
  , step_results := results
  , execution_time := total_time }

/-! Concrete instances used by witnesses and counterexamples. -/

/-- A tracking URL with a marketing parameter. -/
def fb_url : Str := "https://facebook.com/tr?utm_source=newsletter".data

/-- A tracked request to `fb_url`, as `_capture_request` would record it. -/
def req_fb : TrackedRequest :=
  { url := fb_url
  , method := "GET".data
  , headers := []
  , timestamp := 1
  , phase := .page_load
  , resource_type := "xhr".data
  , is_tracking := is_tracking_request fb_url }

/-- A response for `fb_url`. -/
def resp_fb : RawResponse :=
  { url := fb_url, status := 200, headers := [], ok := true }

/-- A monitor holding the single tracking request `req_fb`. -/
def mon_fb : NetworkMonitor :=
  { requests := [req_fb], start_time := some 0 }

/-- A non-tracking URL. -/
def plain_url : Str := "https://example.com/page".data

/-- A tracked request to the non-tracking `plain_url`. -/
def req_plain : TrackedRequest :=
  { url := plain_url
  , method := "GET".data
  , headers := []
  , timestamp := 1
  , phase := .page_load
  , resource_type := "document".data
  , is_tracking := is_tracking_request plain_url }

/-- A response for `plain_url`. -/
def resp_plain : RawResponse :=
  { url := plain_url, status := 200, headers := [], ok := true }

/-- A monitor holding the single non-tracking request `req_plain`. -/
def mon_plain : NetworkMonitor :=
  { requests := [req_plain], start_time := some 0 }

/-- A summary of an idle step (no traffic at all). -/
def empty_summary : ValidationSummary :=
  { total_requests := 0
  , tracking_requests := 0
  , page_load_pixels := 0
  , interaction_pixels := 0
  , pixels_by_vendor := []
  , timeline := [] }

/-- A summary whose only vendor entry is "Facebook Pixel" with `req_fb`. -/
def sum_fb : ValidationSummary :=
  { total_requests := 1
  , tracking_requests := 1
  , page_load_pixels := 1
  , interaction_pixels := 0
  , pixels_by_vendor := [("Facebook Pixel".data, [req_fb])]
  , timeline := [] }

/-- An expectation on vendor "Facebook" with one URL-parameter constraint. -/
def ep_fb : ExpectedPixel :=
  { vendor := "Facebook".data
  , url_params := [ { name := "utm_source".data, value := "newsletter".data } ] }

/-- A step declaring the `ep_fb` expectation. -/
def step_fb : ValidationStep :=
  { name := "check fb".data, action := "load_page".data, expect_pixels := [ep_fb] }

/-- A step with no declared expectations. -/
def step_empty : ValidationStep :=
  { name := "idle".data, action := "load_page".data }

/-- A step declaring a vendor expectation without parameter constraints. -/
def step_exp : ValidationStep :=
  { name := "step a".data
  , action := "load_page".data
  , expect_pixels := [ { vendor := "Facebook".data } ] }

/-- A second step for the journey-isolation witness. -/
def step_next : ValidationStep :=
  { name := "step b".data, action := "click the banner".data }

/-- A two-step journey whose first step raised an exception. -/
def journey_steps : List (ValidationStep × StepOutcome × Int) :=
  [ (step_exp, StepOutcome.err "boom".data, 1)
  , (step_next, StepOutcome.ok empty_summary, 2) ]

/-! Helper lemmas about the embedding. -/

/-- `attach_rev` leaves a list without an unresolved matching request alone. -/
lemma attach_rev_of_no_match (resp : RawResponse) :
    ∀ l : List TrackedRequest,
      (∀ r ∈ l, ¬(r.url = resp.url ∧ r.status_code = none)) →
      attach_rev resp l = l
  | [], _ => rfl
  | r :: rest, h => by
      rw [attach_rev, if_neg (h r (List.mem_cons_self r rest)),
        attach_rev_of_no_match resp rest (fun x hx => h x (List.mem_cons_of_mem r hx))]

/-- `attach_rev` rewrites exactly the first unresolved matching request. -/
lemma attach_rev_found (resp : RawResponse) (r : TrackedRequest)
    (hr : r.url = resp.url ∧ r.status_code = none) :
    ∀ l1 l2, (∀ x ∈ l1, ¬(x.url = resp.url ∧ x.status_code = none)) →
      attach_rev resp (l1 ++ r :: l2) = l1 ++ set_response r resp :: l2
  | [], l2, _ => by
      rw [List.nil_append, attach_rev, if_pos hr, List.nil_append]
  | x :: l1, l2, h => by
      rw [List.cons_append, attach_rev, if_neg (h x (List.mem_cons_self x l1)),
        attach_rev_found resp r hr l1 l2 (fun y hy => h y (List.mem_cons_of_mem x hy)),
        List.cons_append]

/-- Every request list either has no unresolved match for a response, or
splits around the last unresolved match. -/
lemma last_match_decomp (resp : RawResponse) :
    ∀ l : List TrackedRequest,
      (∀ r ∈ l, ¬(r.url = resp.url ∧ r.status_code = none)) ∨
      ∃ pre r post, l = pre ++ r :: post ∧
        (r.url = resp.url ∧ r.status_code = none) ∧
        ∀ x ∈ post, ¬(x.url = resp.url ∧ x.status_code = none)
  | [] => .inl (by simp)
  | a :: rest =>
      match last_match_decomp resp rest with
      | .inr ⟨pre, r, post, heq, hr, hpost⟩ =>
          .inr ⟨a :: pre, r, post, by rw [heq, List.cons_append], hr, hpost⟩
      | .inl hnone =>
          if ha : a.url = resp.url ∧ a.status_code = none then
            .inr ⟨[], a, rest, rfl, ha, hnone⟩
          else
            .inl (by
              intro x hx
              rcases List.mem_cons.mp hx with h1 | h2
              · rw [h1]; exact ha
              · exact hnone x h2)

/-- A response for a non-tracking URL is ignored entirely. -/
lemma capture_response_not_tracking (m : NetworkMonitor) (resp : RawResponse)
    (h : is_tracking_request resp.url = false) :
    capture_response m resp = m := by
  rw [capture_response, if_neg]
  simp [h]

/-- A response with no unresolved matching request leaves the state alone. -/
lemma capture_response_no_match (m : NetworkMonitor) (resp : RawResponse)
    (h : ∀ r ∈ m.requests, ¬(r.url = resp.url ∧ r.status_code = none)) :
    capture_response m resp = m := by
  rw [capture_response]
  split
  · rw [attach_rev_of_no_match resp m.requests.reverse
      (fun r hr => h r (List.mem_reverse.mp hr))]
    simp
  · rfl

/-- A tracking response attaches to the last unresolved matching request. -/
lemma capture_response_attach (m : NetworkMonitor) (resp : RawResponse)
    (pre : List TrackedRequest) (r : TrackedRequest) (post : List TrackedRequest)
    (htrack : is_tracking_request resp.url = true)
    (hsplit : m.requests = pre ++ r :: post)
    (hurl : r.url = resp.url) (hstat : r.status_code = none)
    (hpost : ∀ x ∈ post, ¬(x.url = resp.url ∧ x.status_code = none)) :
    capture_response m resp
      = { m with requests := pre ++ set_response r resp :: post } := by
  rw [capture_response, if_pos htrack, hsplit]
  have hrev : (pre ++ r :: post).reverse = post.reverse ++ r :: pre.reverse := by
    simp
  rw [hrev, attach_rev_found resp r ⟨hurl, hstat⟩ post.reverse pre.reverse
    (fun x hx => hpost x (List.mem_reverse.mp hx))]
  simp

/-- `find?` returns the element at the first index whose predicate holds. -/
lemma find_first_eq {α : Type} (p : α → Bool) :
    ∀ (l : List α) (i : Nat) (hi : i < l.length),
      p (l.get ⟨i, hi⟩) = true →
      (∀ a ∈ l.take i, p a = false) →
      l.find? p = some (l.get ⟨i, hi⟩)
  | a :: rest, 0, _, hp, _ => List.find?_cons_of_pos rest hp
  | a :: rest, i + 1, hi, hp, hprev => by
      have ha : p a = false :=
        hprev a (by rw [List.take_succ_cons]; exact List.mem_cons_self a _)
      rw [List.find?_cons_of_neg rest (by simp [ha])]
      exact find_first_eq p rest i (by simpa using hi) hp
        (fun b hb => hprev b (by rw [List.take_succ_cons]; exact List.mem_cons_of_mem a hb))

/-- Every tracked request is in exactly one of the two phases. -/
lemma filter_phase_partition :
    ∀ l : List TrackedRequest,
      (l.filter fun r => decide (r.phase = Phase.page_load)).length
      + (l.filter fun r => decide (r.phase = Phase.user_interaction)).length
      = l.length
  | [] => rfl
  | r :: rest => by
      have ih := filter_phase_partition rest
      cases h : r.phase <;> simp [List.filter_cons, h] <;> omega

/-- `assoc_add` grows the total number of stored values by one. -/
lemma assoc_add_sum {α β : Type} [DecidableEq α] :
    ∀ (acc : List (α × List β)) (k : α) (v : β),
      ((assoc_add acc k v).map (fun e => e.2.length)).sum
        = ((acc.map (fun e => e.2.length)).sum) + 1
  | [], _, _ => by simp [assoc_add]
  | e :: rest, k, v => by
      rw [assoc_add]
      by_cases h : e.1 = k
      · rw [if_pos h]
        simp [Nat.add_assoc, Nat.add_comm, Nat.add_left_comm]
      · rw [if_neg h]
        simp only [List.map_cons, List.sum_cons, assoc_add_sum rest k v]
        omega

/-- Folding requests into the vendor grouping preserves the total count. -/
lemma group_fold_sum :
    ∀ (l : List TrackedRequest) (acc : List (Str × List TrackedRequest)),
      ((l.foldl (fun acc r => assoc_add acc (classify_pixel r.url) r) acc).map
          (fun e => e.2.length)).sum
        = (acc.map (fun e => e.2.length)).sum + l.length
  | [], acc => by simp
  | r :: rest, acc => by
      rw [List.foldl_cons, group_fold_sum rest, assoc_add_sum]
      simp only [List.length_cons]
      omega

/-- The timeline sort key is transitive. -/
lemma ts_le_trans (a b c : TrackedRequest) :
    ts_le a b = true → ts_le b c = true → ts_le a c = true := by
  simp only [ts_le, decide_eq_true_eq]
  exact le_trans

/-- The timeline sort key is total. -/
lemma ts_le_total (a b : TrackedRequest) : (ts_le a b || ts_le b a) = true := by
  simp only [ts_le, Bool.or_eq_true, decide_eq_true_eq]
  exact le_total a.timestamp b.timestamp

/-- The rendered timeline is sorted by its offset field. -/
lemma timeline_sorted (m : NetworkMonitor) :
    List.Pairwise (fun a b : TimelineEntry => a.timestamp ≤ b.timestamp)
      (get_timeline m) := by
  unfold get_timeline
  have hs := List.sorted_mergeSort ts_le_trans ts_le_total (get_tracking_requests m)
  refine List.Pairwise.map (timeline_entry m.start_time) ?_ hs
  intro a b hab
  have hab2 : a.timestamp ≤ b.timestamp := by
    simpa [ts_le] using hab
  cases m.start_time with
  | none => simp [timeline_entry]
  | some t => simpa [timeline_entry] using sub_le_sub_right hab2 t

/-! Claim theorems. -/

/-- C2: every URL containing the GA4 collect path segment (the literal
`google-analytics.com` followed, within one line, by `/g/collect`) is
classified as "Google Analytics 4" and never as "Universal Analytics": the
GA4 rule precedes the Universal Analytics rule in the declared order of
`classifications`, and `classify_pixel` returns the first match. -/
theorem classify_ga4_priority (url : Str)
    (h : searchGap "google-analytics.com".data "/g/collect".data url = true) :
    classify_pixel url = "Google Analytics 4".data ∧
    classify_pixel url ≠ "Universal Analytics".data := by
  have h0 : 0 < classifications.length := by decide
  have hget : (classifications.get ⟨0, h0⟩).2 url = true := by
    show (searchLit "gtag".data url
      || searchGap "google-analytics.com".data "/g/collect".data url) = true
    simp [h]
  have hcl : classify_pixel url = (classifications.get ⟨0, h0⟩).1 := by
    rw [classify_pixel,
      find_first_eq (fun vp => vp.2 url) classifications 0 h0 hget (by simp)]
  have hlab : (classifications.get ⟨0, h0⟩).1 = "Google Analytics 4".data := rfl
  rw [hcl, hlab]
  exact ⟨rfl, by decide⟩

/-- C2 witness: a concrete GA4 collect URL. -/
theorem classify_ga4_priority_witness :
    classify_pixel "https://www.google-analytics.com/g/collect?v=2".data
        = "Google Analytics 4".data ∧
    classify_pixel "https://www.google-analytics.com/g/collect?v=2".data
        ≠ "Universal Analytics".data :=
  classify_ga4_priority "https://www.google-analytics.com/g/collect?v=2".data
    (by decide)

/-- C3 counterexample: `http://example.com/gtag` matches the
"Google Analytics 4" vendor rule and is classified so, yet
`is_tracking_request` is false on it (no detection pattern matches a bare
`gtag`); and `https://hotjar.com/gtag` matches the "Hotjar" vendor rule
(entry 4 of the table) yet is not classified as "Hotjar", because the earlier
GA4 rule also matches.  Both refute the claim that matching a vendor-specific
pattern yields that vendor's label together with a true tracking verdict. -/
theorem classify_vendor_cex :
    classify_pixel "http://example.com/gtag".data = "Google Analytics 4".data ∧
    is_tracking_request "http://example.com/gtag".data = false ∧
    (classifications.get ⟨4, by decide⟩).1 = "Hotjar".data ∧
    (classifications.get ⟨4, by decide⟩).2 "https://hotjar.com/gtag".data = true ∧
    classify_pixel "https://hotjar.com/gtag".data ≠ "Hotjar".data :=
  ⟨by decide, by decide, by decide, by decide, by decide⟩

/-- C3 (amended): `classify_pixel` returns the label of the first vendor rule,
in the declared order of `classifications`, whose pattern matches the URL —
so a URL matching a vendor-specific pattern is labelled with that vendor
exactly when no earlier rule also matches, and the tracking verdict is
computed independently; a URL on which no vendor rule matches (in particular
one caught only by a generic detection heuristic) gets the fallback label
"Generic Tracking". -/
theorem classify_first_match :
    (∀ (url : Str) (i : Nat) (hi : i < classifications.length),
      (classifications.get ⟨i, hi⟩).2 url = true →
      (∀ vp ∈ classifications.take i, vp.2 url = false) →
      classify_pixel url = (classifications.get ⟨i, hi⟩).1) ∧
    (∀ url : Str, is_tracking_request url = true →
      (∀ vp ∈ classifications, vp.2 url = false) →
      classify_pixel url = "Generic Tracking".data) := by
  constructor
  · intro url i hi hp hprev
    rw [classify_pixel,
      find_first_eq (fun vp => vp.2 url) classifications i hi hp hprev]
  · intro url _ hall
    rw [classify_pixel,
      List.find?_eq_none.mpr (fun vp hvp => by simp [hall vp hvp])]

/-- C3 witness: the Hotjar rule is the first match on a Hotjar URL, and a URL
matching only generic heuristics falls back to "Generic Tracking". -/
theorem classify_first_match_witness :
    classify_pixel "https://hotjar.com/track".data = "Hotjar".data ∧
    classify_pixel "https://unknown-tracker.com/pixel?x=1".data
        = "Generic Tracking".data := by
  constructor
  · exact (classify_first_match.1 "https://hotjar.com/track".data 4 (by decide)
      (by decide) (by decide)).trans (by decide)
  · exact classify_first_match.2 "https://unknown-tracker.com/pixel?x=1".data
      (by decide) (by decide)

/-- C5: the fuzzy vendor comparison of the Matcher is case-insensitive
substring containment in either direction, and therefore symmetric. -/
theorem vendor_matches_symm_sub (a b : Str) :
    vendor_matches a b = vendor_matches b a ∧
    (vendor_matches a b = true ↔
      (to_lower a <:+: to_lower b ∨ to_lower b <:+: to_lower a)) := by
  constructor
  · simp [vendor_matches, Bool.or_comm]
  · simp [vendor_matches, str_in]

/-- C10: in every summary the monitor produces, the phase counts partition
the tracking count, the tracking count is bounded by the total count, the
vendor grouping contains every tracking request exactly once, and the
timeline has one entry per tracking request sorted ascending by its offset
field. -/
theorem summary_invariants (m : NetworkMonitor) :
    (get_summary m).page_load_pixels + (get_summary m).interaction_pixels
        = (get_summary m).tracking_requests ∧
    (get_summary m).tracking_requests ≤ (get_summary m).total_requests ∧
    ((get_summary m).pixels_by_vendor.map (fun e => e.2.length)).sum
        = (get_summary m).tracking_requests ∧
    (get_summary m).timeline.length = (get_summary m).tracking_requests ∧
    List.Pairwise (fun a b : TimelineEntry => a.timestamp ≤ b.timestamp)
      (get_summary m).timeline := by
  refine ⟨?_, ?_, ?_, ?_, ?_⟩
  · exact filter_phase_partition (get_tracking_requests m)
  · exact List.length_filter_le _ _
  · simpa using group_fold_sum (get_tracking_requests m) []
  · simp [get_summary, get_timeline, List.length_mergeSort]
  · exact timeline_sorted m

/-- C1 counterexample: a response for the non-tracking URL
`https://example.com/page` is discarded even though an unresolved request
with exactly that URL is in the log — the claim demands that such a response
attach to that request, but `_capture_response` correlates only tracking
URLs, so the state is entirely unchanged and the request keeps no status
code. -/
theorem capture_response_correlation_cex :
    req_plain ∈ mon_plain.requests ∧
    req_plain.url = resp_plain.url ∧
    req_plain.status_code = none ∧
    capture_response mon_plain resp_plain = mon_plain ∧
    (capture_response mon_plain resp_plain).requests.map
        (fun r => r.status_code) = [none] :=
  ⟨by decide, by decide, by decide, by decide, by decide⟩

/-- C1 (amended): for a response whose URL is a tracking URL,
`_capture_response` attaches the response (status code, headers, ok flag) to
the most recently recorded request with equal URL that has no status code
yet — scanning the log newest-to-oldest, the first unresolved match wins —
and leaves everything else unchanged; a response with no unresolved matching
request, and likewise any response for a non-tracking URL (even when an
unresolved matching request exists), is discarded with the session state
unchanged. -/
theorem capture_response_correlation (m : NetworkMonitor) (resp : RawResponse) :
    (is_tracking_request resp.url = false → capture_response m resp = m) ∧
    ((∀ r ∈ m.requests, ¬(r.url = resp.url ∧ r.status_code = none)) →
      capture_response m resp = m) ∧
    (∀ pre r post,
      is_tracking_request resp.url = true →
      m.requests = pre ++ r :: post →
      r.url = resp.url → r.status_code = none →
      (∀ x ∈ post, ¬(x.url = resp.url ∧ x.status_code = none)) →
      capture_response m resp
        = { m with requests := pre ++ set_response r resp :: post }) :=
  ⟨capture_response_not_tracking m resp,
   capture_response_no_match m resp,
   fun pre r post htrack hsplit hurl hstat hpost =>
     capture_response_attach m resp pre r post htrack hsplit hurl hstat hpost⟩

/-- C1 witness: the response `resp_fb` attaches to the unresolved tracking
request `req_fb`. -/
theorem capture_response_correlation_witness :
    capture_response mon_fb resp_fb
      = { mon_fb with requests := [set_response req_fb resp_fb] } :=
  (capture_response_correlation mon_fb resp_fb).2.2 [] req_fb []
    (by decide) rfl rfl rfl (by simp)

/-- C9: one `_capture_response` call either leaves the session unchanged or
rewrites exactly one recorded request — one that still had no status code —
filling its three response fields and preserving its seven request fields,
while every other request (in particular every request whose response fields
are already set) and the rest of the monitor state stay untouched; hence a
request receives at most one response-completion over the session's
lifetime. -/
theorem capture_response_frame (m : NetworkMonitor) (resp : RawResponse) :
    capture_response m resp = m ∨
    ∃ pre r post,
      m.requests = pre ++ r :: post ∧
      r.status_code = none ∧
      r.url = resp.url ∧
      capture_response m resp
        = { m with requests := pre ++ set_response r resp :: post } ∧
      (set_response r resp).url = r.url ∧
      (set_response r resp).method = r.method ∧
      (set_response r resp).headers = r.headers ∧
      (set_response r resp).timestamp = r.timestamp ∧
      (set_response r resp).phase = r.phase ∧
      (set_response r resp).resource_type = r.resource_type ∧
      (set_response r resp).is_tracking = r.is_tracking ∧
      (set_response r resp).status_code = some resp.status ∧
      (set_response r resp).response_headers = some resp.headers ∧
      (set_response r resp).successful = some resp.ok := by
  cases htr : is_tracking_request resp.url with
  | false => exact .inl (capture_response_not_tracking m resp htr)
  | true =>
    cases last_match_decomp resp m.requests with
    | inl h => exact .inl (capture_response_no_match m resp h)
    | inr h =>
      obtain ⟨pre, r, post, heq, ⟨hurl, hstat⟩, hpost⟩ := h
      exact .inr ⟨pre, r, post, heq, hstat, hurl,
        capture_response_attach m resp pre r post htr heq hurl hstat hpost,
        rfl, rfl, rfl, rfl, rfl, rfl, rfl, rfl, rfl, rfl⟩

/-- C8 counterexample: stopping the session `mon_fb` twice yields the same
summary both times, and that summary still reports the captured tracking
request — not the empty-delta summary the claim promises for the second
call. -/
theorem stop_twice_cex :
    (stop (stop mon_fb).1).2 = (stop mon_fb).2 ∧
    (stop (stop mon_fb).1).2.tracking_requests = 1 :=
  ⟨rfl, by decide⟩

/-- C8 (amended): `stop` never fails and does not modify the session state
(there is no closed flag), so stopping an already-stopped session returns a
summary equal to the first one — it re-reports the session's captured
traffic instead of an empty delta. -/
theorem stop_twice_same (m : NetworkMonitor) :
    (stop m).1 = m ∧ (stop (stop m).1).2 = (stop m).2 :=
  ⟨rfl, rfl⟩

/-- C6 counterexample: a journey whose only step raised an exception produces
a StepResult with success = false together with an EMPTY failedVendors list,
refuting the claimed equivalence for the step-error path. -/
theorem step_error_success_cex :
    ((validate_test_case "tc".data "u".data
        [(step_exp, StepOutcome.err "boom".data, 0)] 0).step_results.map
      (fun r => (r.success, r.failed_pixels))) = [(false, ([] : List Str))] := by
  decide

/-- C6 (amended): every StepResult built by the normal validation path has
success true iff its failedVendors list is empty — in particular a step with
no declared expectations succeeds — while the step-error path always records
success = false and leaves failedVendors empty. -/
theorem step_success_iff_failed_empty (step : ValidationStep)
    (summary : ValidationSummary) (t : Int) :
    ((validate_step_pixels step summary t).success = true ↔
      (validate_step_pixels step summary t).failed_pixels = []) ∧
    (step.expect_pixels = [] →
      (validate_step_pixels step summary t).success = true) ∧
    (∀ e, (run_step step (.err e) t).success = false ∧
          (run_step step (.err e) t).failed_pixels = []) := by
  refine ⟨List.isEmpty_iff, ?_, fun e => ⟨rfl, rfl⟩⟩
  intro h
  simp [validate_step_pixels, h]

/-- C6 witness: a step with no declared expectations succeeds. -/
theorem step_success_iff_failed_empty_witness :
    (validate_step_pixels step_empty empty_summary 0).success = true :=
  (step_success_iff_failed_empty step_empty empty_summary 0).2.1 rfl

/-- Both branches of the step loop record the step's own name. -/
lemma run_step_step_name (s : ValidationStep) (o : StepOutcome) (t : Int) :
    (run_step s o t).step_name = s.name := by
  cases o <;> rfl

/-- C7: the journey loop yields exactly one StepResult per declared step, in
declared order (the i-th result is the i-th step's outcome run through the
step body, and carries that step's name); a step whose execution raised an
exception contributes a failed StepResult carrying the exception string,
while every other step still contributes its own result. -/
theorem journey_step_isolation (tc url : Str)
    (steps : List (ValidationStep × StepOutcome × Int)) (T : Int) :
    (validate_test_case tc url steps T).step_results.length = steps.length ∧
    ∀ (i : Nat) (hi : i < steps.length)
      (hi2 : i < (validate_test_case tc url steps T).step_results.length),
      (validate_test_case tc url steps T).step_results.get ⟨i, hi2⟩
          = run_step (steps.get ⟨i, hi⟩).1 (steps.get ⟨i, hi⟩).2.1
              (steps.get ⟨i, hi⟩).2.2 ∧
      ((validate_test_case tc url steps T).step_results.get ⟨i, hi2⟩).step_name
          = (steps.get ⟨i, hi⟩).1.name ∧
      ∀ e, (steps.get ⟨i, hi⟩).2.1 = StepOutcome.err e →
        ((validate_test_case tc url steps T).step_results.get ⟨i, hi2⟩).success
            = false ∧
        ((validate_test_case tc url steps T).step_results.get ⟨i, hi2⟩).error
            = some e := by
  constructor
  · simp [validate_test_case]
  · intro i hi hi2
    have hmap : (validate_test_case tc url steps T).step_results.get ⟨i, hi2⟩
        = run_step (steps.get ⟨i, hi⟩).1 (steps.get ⟨i, hi⟩).2.1
            (steps.get ⟨i, hi⟩).2.2 := by
      simp [validate_test_case, List.get_eq_getElem, List.getElem_map]
    refine ⟨hmap, ?_, ?_⟩
    · rw [hmap, run_step_step_name]
    · intro e he
      rw [hmap, he]
      exact ⟨rfl, rfl⟩

/-- C7 witness: in a two-step journey whose first step raised "boom", the
first result is failed with the recorded error and both steps report. -/
theorem journey_step_isolation_witness :
    ((validate_test_case "tc".data "https://x".data journey_steps 3).step_results.get
        ⟨0, by decide⟩).success = false ∧
    ((validate_test_case "tc".data "https://x".data journey_steps 3).step_results.get
        ⟨0, by decide⟩).error = some "boom".data ∧
    (validate_test_case "tc".data "https://x".data journey_steps 3).step_results.length
        = 2 := by
  have h := journey_step_isolation "tc".data "https://x".data journey_steps 3
  have h0 := (h.2 0 (by decide) (by decide)).2.2 "boom".data (by decide)
  exact ⟨h0.1, h0.2, h.1.trans (by decide)⟩

/-- C4: for an expectation that declares URL-parameter constraints (the
declared vendors being unique, as keys of the `expect_pixels` mapping are),
the step validation passes that vendor iff some `pixels_by_vendor` entry
fuzzily matching it contains at least one request whose query string — as
`parse_qs` parses it — binds every constrained name to a value list
containing the expected value by exact string equality. -/
theorem param_constraints_iff (step : ValidationStep)
    (summary : ValidationSummary) (t : Int) (ep : ExpectedPixel)
    (hmem : ep ∈ step.expect_pixels)
    (hnodup : (step.expect_pixels.map (fun p => p.vendor)).Nodup)
    (hps : ep.url_params ≠ []) :
    ep.vendor ∈ (validate_step_pixels step summary t).passed_pixels ↔
      ∃ entry ∈ summary.pixels_by_vendor,
        vendor_matches ep.vendor entry.1 = true ∧
        ∃ r ∈ entry.2, ∀ p ∈ ep.url_params,
          p.value ∈ qs_get (parse_qs (url_query r.url)) p.name := by
  have hpass : ep.vendor ∈ (validate_step_pixels step summary t).passed_pixels ↔
      pixel_passes ep summary = true := by
    constructor
    · intro hin
      simp only [validate_step_pixels, List.mem_map, List.mem_filter] at hin
      obtain ⟨ep2, ⟨hmem2, hp2⟩, hv⟩ := hin
      rw [List.inj_on_of_nodup_map hnodup hmem2 hmem hv] at hp2
      exact hp2
    · intro hp
      simp only [validate_step_pixels, List.mem_map, List.mem_filter]
      exact ⟨ep, ⟨hmem, hp⟩, rfl⟩
  rw [hpass]
  have hemp : ep.url_params.isEmpty = false := by
    cases h : ep.url_params with
    | nil => exact absurd h hps
    | cons a l => rfl
  rw [pixel_passes, hemp, Bool.false_or]
  constructor
  · intro h
    rw [Bool.and_eq_true] at h
    obtain ⟨entry, hentry, hmatch⟩ := List.any_eq_true.mp h.2
    rw [vendor_entry_has_param_match, Bool.and_eq_true] at hmatch
    obtain ⟨r, hr, hall⟩ := List.any_eq_true.mp hmatch.2
    refine ⟨entry, hentry, hmatch.1, r, hr, ?_⟩
    intro p hp
    simp only [request_params_match, List.all_eq_true] at hall
    simpa using hall p hp
  · rintro ⟨entry, hentry, hvm, r, hr, hall⟩
    have hpv : param_validation ep summary.pixels_by_vendor = true :=
      List.any_eq_true.mpr ⟨entry, hentry, by
        rw [vendor_entry_has_param_match, Bool.and_eq_true]
        refine ⟨hvm, List.any_eq_true.mpr ⟨r, hr, ?_⟩⟩
        simp only [request_params_match, List.all_eq_true]
        intro p hp
        simpa using hall p hp⟩
    rw [Bool.and_eq_true]
    exact ⟨List.any_eq_true.mpr ⟨entry.1, List.mem_map_of_mem _ hentry, hvm⟩, hpv⟩

/-- C4 witness: the "Facebook" expectation constrained by
`utm_source=newsletter` passes against the summary `sum_fb`. -/
theorem param_constraints_iff_witness :
    ep_fb.vendor ∈ (validate_step_pixels step_fb sum_fb 0).passed_pixels :=
  (param_constraints_iff step_fb sum_fb 0 ep_fb (by decide) (by decide)
      (by decide)).mpr
    ⟨("Facebook Pixel".data, [req_fb]), by decide, by decide, req_fb, by decide,
      by decide⟩
